import Mathlib

/-!
Shallow embedding of the DMA telemetry transmit pipeline of
`src/dma_int/main.rs`: the transfer buffer (`TxBuffer`, a heapless
`Vec<u8, U256>`), the two-variant state machine `TransferState` with its
single operation `DmaTelemetry::send`, the line formatter `fill_with_str`,
and the two invocation sites (`DmaTelemetry::create` + the boot-time call
in `init`, and the interrupt handler `handle_mpu` acting on the `TELE`
slot).

Hardware is represented at its interface boundary: `write_all` starts a
transfer and returns a handle owning the buffer, channel and transmitter;
the non-blocking completion check `transfer.is_done()` is answered by the
hardware, so it enters the model as a boolean oracle argument `isDone` of
`send`; `transfer.wait()` (called only once `is_done` is true) yields the
owned triple back.  Every call records its externally visible events — the
filler invocation, the reclaim, the buffer clear, and the transfer start
with the exact bytes handed to the hardware — as a trace of `Effect`s.
`Option` models the fatal abort: `none` is the propagated unwrap failure
when a filler overflows the buffer capacity.
-/

namespace DmaInt

/-- One byte of the transfer buffer, `u8` in the source; capacity checks
only depend on counts, so bytes are modelled as natural numbers. -/
abbrev Byte := Nat

/-- Model of `type TxBuffer = Vec<u8, U256>` (src/dma_int/main.rs:19): a
byte vector of capacity 256, represented by its contents. -/
abbrev TxBuffer := List Byte

/-- The `U256` capacity bound of `TxBuffer`. -/
def txCapacity : Nat := 256

/-- Model of heapless `Vec::extend_from_slice` at capacity `txCapacity`:
the whole slice is appended when the resulting length fits, otherwise the
call fails with no partial write (heapless checks the length before
copying anything). -/
def extend_from_slice (b : TxBuffer) (other : List Byte) : Option TxBuffer :=
  if b.length + other.length ≤ txCapacity then some (b ++ other) else none

/-- Model of heapless `Vec::clear`: the buffer becomes empty. -/
def TxBuffer.clear (_ : TxBuffer) : TxBuffer := []

/-- Model of `fill_with_str` (src/dma_int/main.rs:75-77): append the UTF-8
bytes of the argument string to the buffer and unwrap.  The string is given
by its byte sequence `arg`; `none` models the fatal unwrap failure on
capacity overflow. -/
def fill_with_str (buffer : TxBuffer) (arg : List Byte) : Option TxBuffer :=
  extend_from_slice buffer arg

/-- Model of `type TxCh = hal::dma::dma1::C4` (src/dma_int/main.rs:17): an
opaque DMA-channel handle, tagged with an identity so that ownership
conservation is expressible. -/
structure TxCh where
  id : Nat
deriving DecidableEq

/-- Model of `type TxUsart = hal::serial::Tx<USART1>`
(src/dma_int/main.rs:16): an opaque transmitter handle, tagged with an
identity. -/
structure TxUsart where
  id : Nat
deriving DecidableEq

/-- Model of `type TxBusy = hal::dma::Transfer<R, &mut TxBuffer, TxCh,
TxUsart>` (src/dma_int/main.rs:20-22): a started transfer exclusively
owning the buffer, the channel and the transmitter until `wait` resolves
it. -/
structure Transfer where
  buffer : TxBuffer
  ch : TxCh
  tx : TxUsart
deriving DecidableEq

/-- Model of `tx.write_all(ch, buffer)` (src/dma_int/main.rs:53): begin the
asynchronous transfer of the whole buffer contents; the returned handle
takes ownership of buffer, channel and transmitter. -/
def write_all (tx : TxUsart) (ch : TxCh) (buffer : TxBuffer) : Transfer :=
  ⟨buffer, ch, tx⟩

/-- Model of `enum TransferState` (src/dma_int/main.rs:25-28): either the
idle triple `Ready(buffer, ch, tx)` or the in-flight handle
`MaybeBusy(transfer)` (the spec's `InFlight`). -/
inductive TransferState where
  | Ready : TxBuffer → TxCh → TxUsart → TransferState
  | MaybeBusy : Transfer → TransferState
deriving DecidableEq

/-- Model of `struct DmaTelemetry` (src/dma_int/main.rs:30-32): a wrapper
holding the current `TransferState`. -/
structure DmaTelemetry where
  state : TransferState
deriving DecidableEq

/-- Model of `DmaTelemetry::with_state` (src/dma_int/main.rs:35-37). -/
def DmaTelemetry.with_state (ns : TransferState) : DmaTelemetry :=
  ⟨ns⟩

/-- Model of `DmaTelemetry::create` (src/dma_int/main.rs:41-45): the static
`BUFFER` starts as `Vec::new()` (empty), and the initial state is `Ready`
over it with the given channel and transmitter. -/
def DmaTelemetry.create (ch : TxCh) (tx : TxUsart) : DmaTelemetry :=
  DmaTelemetry.with_state (TransferState.Ready [] ch tx)

/-- Externally visible events of one `send` call, in the order they
happen: the buffer-filler callback runs, a finished transfer is reclaimed
(`wait`), the buffer is cleared, or a hardware transfer is started with
exactly `bytes` as its source. -/
inductive Effect where
  | fillCalled
  | reclaim
  | bufferClear
  | transferStart (bytes : TxBuffer)
deriving DecidableEq

/-- The `Ready` arm of `DmaTelemetry::send` (src/dma_int/main.rs:50-54)
together with the immediately following return of the outer match
(src/dma_int/main.rs:66-71): run the filler on the buffer, then start
exactly one transfer carrying the filled contents; the resulting state is
`MaybeBusy` of the new handle.  `none` propagates a filler overflow. -/
def send_ready (buffer : TxBuffer) (ch : TxCh) (tx : TxUsart)
    (buffer_filler : TxBuffer → Option TxBuffer) :
    Option (DmaTelemetry × List Effect) :=
  match buffer_filler buffer with
  | none => none
  | some buffer' =>
    some (DmaTelemetry.with_state (TransferState.MaybeBusy (write_all tx ch buffer')),
      [Effect.fillCalled, Effect.transferStart buffer'])

/-- Model of `DmaTelemetry::send` (src/dma_int/main.rs:47-72).  The source
first computes a new state `ns` by matching the current state — `Ready`:
fill the buffer and start a transfer; `MaybeBusy` and `is_done()` false:
keep the state unchanged; `MaybeBusy` and `is_done()` true: `wait()` to
reclaim `(buffer, ch, tx)`, clear the buffer, and become `Ready` — and then
matches `ns`: a `MaybeBusy` result is returned, while a `Ready` result
(which arises exactly when a finished transfer was just reclaimed) is fed
to a recursive `send` with the same filler.  That recursive call matches
the fresh `Ready` state and necessarily takes the `Ready` arm, so the one
recursive step is realised by `send_ready` below; `sendN` further down is
the literal fuel-indexed recursion and is proved to agree.  `isDone` is the
hardware's answer to `transfer.is_done()` during this call. -/
def send (d : DmaTelemetry) (isDone : Bool)
    (buffer_filler : TxBuffer → Option TxBuffer) :
    Option (DmaTelemetry × List Effect) :=
  let ns : Option (TransferState × List Effect) :=
    match d.state with
    | TransferState.Ready buffer ch tx =>
      match buffer_filler buffer with
      | none => none
      | some buffer' =>
        some (TransferState.MaybeBusy (write_all tx ch buffer'),
          [Effect.fillCalled, Effect.transferStart buffer'])
    | TransferState.MaybeBusy transfer =>
      if isDone then
        some (TransferState.Ready (TxBuffer.clear transfer.buffer) transfer.ch transfer.tx,
          [Effect.reclaim, Effect.bufferClear])
      else
        some (TransferState.MaybeBusy transfer, [])
  match ns with
  | none => none
  | some (TransferState.MaybeBusy transfer, es) =>
    some (DmaTelemetry.with_state (TransferState.MaybeBusy transfer), es)
  | some (TransferState.Ready buffer ch tx, es) =>
    match send_ready buffer ch tx buffer_filler with
    | none => none
    | some (d', es') => some (d', es ++ es')

/-- Literal recursive reading of `DmaTelemetry::send`, with an explicit
bound `fuel` on how many times the body may run: the outer `none` means
the bound was exhausted before the call returned, `some none` is the fatal
filler overflow, and `some (some r)` is a normal return.  Apart from the
fuel this is the same text as `send`, with the recursive arm of the outer
match calling `sendN` itself. -/
def sendN : Nat → DmaTelemetry → Bool → (TxBuffer → Option TxBuffer) →
    Option (Option (DmaTelemetry × List Effect))
  | 0, _, _, _ => none
  | fuel + 1, d, isDone, buffer_filler =>
    let ns : Option (TransferState × List Effect) :=
      match d.state with
      | TransferState.Ready buffer ch tx =>
        match buffer_filler buffer with
        | none => none
        | some buffer' =>
          some (TransferState.MaybeBusy (write_all tx ch buffer'),
            [Effect.fillCalled, Effect.transferStart buffer'])
      | TransferState.MaybeBusy transfer =>
        if isDone then
          some (TransferState.Ready (TxBuffer.clear transfer.buffer) transfer.ch transfer.tx,
            [Effect.reclaim, Effect.bufferClear])
        else
          some (TransferState.MaybeBusy transfer, [])
    match ns with
    | none => some none
    | some (TransferState.MaybeBusy transfer, es) =>
      some (some (DmaTelemetry.with_state (TransferState.MaybeBusy transfer), es))
    | some (TransferState.Ready buffer ch tx, es) =>
      match sendN fuel (DmaTelemetry.with_state (TransferState.Ready buffer ch tx)) isDone
          buffer_filler with
      | none => none
      | some none => some none
      | some (some (d', es')) => some (some (d', es ++ es'))

/-- Iterate `send` while the hardware keeps answering false to the
completion check, threading the returned state into the next call and
concatenating the event traces. -/
def sendRepeat : Nat → DmaTelemetry → (TxBuffer → Option TxBuffer) →
    Option (DmaTelemetry × List Effect)
  | 0, d, _ => some (d, [])
  | n + 1, d, buffer_filler =>
    match send d false buffer_filler with
    | none => none
    | some (d', es) =>
      match sendRepeat n d' buffer_filler with
      | none => none
      | some (d'', es') => some (d'', es ++ es')

/-- UTF-8 bytes of the boot payload string of `init`
(src/dma_int/main.rs:118), nine bytes: D, m, a, space, o, k, exclamation
mark, carriage return, line feed. -/
def dmaOkBytes : List Byte :=
  [0x44, 0x6d, 0x61, 0x20, 0x6f, 0x6b, 0x21, 0x0d, 0x0a]

/-- UTF-8 bytes of the interrupt payload string of `handle_mpu`
(src/dma_int/main.rs:126), eleven bytes: i, n, t, e, r, r, u, p, t,
exclamation mark, line feed. -/
def interruptBytes : List Byte :=
  [0x69, 0x6e, 0x74, 0x65, 0x72, 0x72, 0x75, 0x70, 0x74, 0x21, 0x0a]

/-- Model of the interrupt handler `handle_mpu` (src/dma_int/main.rs:123-131):
take the `DmaTelemetry` out of the `TELE` slot; when the slot holds one,
`send` the interrupt payload and store the result back; when the slot is
empty, do nothing and leave it empty.  The result pairs the new slot
contents with the events of the call; `none` propagates a fatal overflow
inside `send`. -/
def handle_mpu (slot : Option DmaTelemetry) (isDone : Bool) :
    Option (Option DmaTelemetry × List Effect) :=
  match slot with
  | none => some (none, [])
  | some tele =>
    match send tele isDone (fun b => fill_with_str b interruptBytes) with
    | none => none
    | some (tele', es) => some (some tele', es)

/-- The DMA channel owned by a state, in either variant. -/
def chanOf : TransferState → TxCh
  | TransferState.Ready _ ch _ => ch
  | TransferState.MaybeBusy t => t.ch

/-- The transmitter owned by a state, in either variant. -/
def txOf : TransferState → TxUsart
  | TransferState.Ready _ _ tx => tx
  | TransferState.MaybeBusy t => t.tx

/-- Whether an event is a hardware transfer start. -/
def Effect.isStart : Effect → Bool
  | Effect.transferStart _ => true
  | _ => false

/-- Whether an event is an invocation of the buffer filler. -/
def Effect.isFill : Effect → Bool
  | Effect.fillCalled => true
  | _ => false

/-- Whether an event is a reclaim (`wait`) of a finished transfer. -/
def Effect.isReclaim : Effect → Bool
  | Effect.reclaim => true
  | _ => false

/-- Number of hardware transfer starts in a trace. -/
def startCount (es : List Effect) : Nat :=
  (es.filter Effect.isStart).length

/-- Number of filler invocations in a trace. -/
def fillCount (es : List Effect) : Nat :=
  (es.filter Effect.isFill).length

/-- Number of reclaims in a trace. -/
def reclaimCount (es : List Effect) : Nat :=
  (es.filter Effect.isReclaim).length

/-- Case inventory of one successful `send` call: it is exactly one of the
three rows of the state-machine table — `Ready` fills and starts, busy and
incomplete returns unchanged with no events, busy and complete reclaims,
clears, refills and starts. -/
theorem send_cases (d : DmaTelemetry) (isDone : Bool)
    (buffer_filler : TxBuffer → Option TxBuffer) (d' : DmaTelemetry) (es : List Effect)
    (h : send d isDone buffer_filler = some (d', es)) :
    (∃ b ch tx b', d.state = TransferState.Ready b ch tx ∧
      buffer_filler b = some b' ∧
      d' = DmaTelemetry.with_state (TransferState.MaybeBusy (write_all tx ch b')) ∧
      es = [Effect.fillCalled, Effect.transferStart b']) ∨
    (∃ t, d.state = TransferState.MaybeBusy t ∧ isDone = false ∧
      d' = DmaTelemetry.with_state (TransferState.MaybeBusy t) ∧ es = []) ∨
    (∃ t p, d.state = TransferState.MaybeBusy t ∧ isDone = true ∧
      buffer_filler (TxBuffer.clear t.buffer) = some p ∧
      d' = DmaTelemetry.with_state (TransferState.MaybeBusy (write_all t.tx t.ch p)) ∧
      es = [Effect.reclaim, Effect.bufferClear, Effect.fillCalled,
        Effect.transferStart p]) := by
  rcases d with ⟨s⟩
  cases s with
  | Ready b ch tx =>
    cases hf : buffer_filler b with
    | none => simp [send, hf] at h
    | some b' =>
      simp [send, hf] at h
      exact Or.inl ⟨b, ch, tx, b', rfl, hf, h.1.symm, h.2.symm⟩
  | MaybeBusy t =>
    cases isDone with
    | false =>
      simp [send] at h
      exact Or.inr (Or.inl ⟨t, rfl, rfl, h.1.symm, h.2⟩)
    | true =>
      cases hf : buffer_filler (TxBuffer.clear t.buffer) with
      | none => simp [send, send_ready, hf] at h
      | some p =>
        simp [send, send_ready, hf] at h
        exact Or.inr (Or.inr ⟨t, p, rfl, rfl, hf, h.1.symm, h.2.symm⟩)

/-- Helper: every successful `send` call preserves the channel and the
transmitter owned by the state, in whichever variant they sit. -/
theorem send_preserves_resources (d : DmaTelemetry) (isDone : Bool)
    (buffer_filler : TxBuffer → Option TxBuffer) (d' : DmaTelemetry) (es : List Effect)
    (h : send d isDone buffer_filler = some (d', es)) :
    chanOf d'.state = chanOf d.state ∧ txOf d'.state = txOf d.state := by
  rcases send_cases d isDone buffer_filler d' es h with
    ⟨b, ch, tx, b', hs, hf, rfl, rfl⟩ | ⟨t, hs, hd, rfl, rfl⟩ |
    ⟨t, p, hs, hd, hf, rfl, rfl⟩ <;>
    simp [hs, chanOf, txOf, DmaTelemetry.with_state, write_all]

/-- C1: for an in-flight state whose completion check answers true during
the call, `send` performs exactly one reclaim, then one buffer clear, then
one filler run and one fresh transfer start whose bytes are exactly the
filler's output on the cleared (empty) buffer — no residue of the prior
payload — and returns the in-flight state of the new handle. -/
theorem c1_reclaim_then_restart (t : Transfer)
    (buffer_filler : TxBuffer → Option TxBuffer) (p : List Byte)
    (h : buffer_filler (TxBuffer.clear t.buffer) = some p) :
    send (DmaTelemetry.with_state (TransferState.MaybeBusy t)) true buffer_filler =
      some (DmaTelemetry.with_state (TransferState.MaybeBusy (write_all t.tx t.ch p)),
        [Effect.reclaim, Effect.bufferClear, Effect.fillCalled,
          Effect.transferStart p]) := by
  simp [send, send_ready, DmaTelemetry.with_state, h]

/-- Witness for C1 at a concrete in-flight transfer holding a stale
three-byte payload and a filler appending the interrupt payload. -/
theorem c1_witness :
    send (DmaTelemetry.with_state (TransferState.MaybeBusy ⟨[1, 2, 3], ⟨4⟩, ⟨5⟩⟩)) true
        (fun b => fill_with_str b interruptBytes) =
      some (DmaTelemetry.with_state
          (TransferState.MaybeBusy (write_all ⟨5⟩ ⟨4⟩ interruptBytes)),
        [Effect.reclaim, Effect.bufferClear, Effect.fillCalled,
          Effect.transferStart interruptBytes]) :=
  c1_reclaim_then_restart ⟨[1, 2, 3], ⟨4⟩, ⟨5⟩⟩
    (fun b => fill_with_str b interruptBytes) interruptBytes (by decide)

/-- C2: from a `Ready` state, `send` first runs the filler on the buffer
and then starts exactly one hardware transfer consuming buffer, channel
and transmitter; the bytes handed to the hardware are the prior contents
followed by exactly the appended payload, and the result is the in-flight
state of the produced handle. -/
theorem c2_ready_fill_then_start (b : TxBuffer) (ch : TxCh) (tx : TxUsart)
    (isDone : Bool) (p : List Byte) (h : b.length + p.length ≤ txCapacity) :
    send (DmaTelemetry.with_state (TransferState.Ready b ch tx)) isDone
        (fun buf => fill_with_str buf p) =
      some (DmaTelemetry.with_state (TransferState.MaybeBusy (write_all tx ch (b ++ p))),
        [Effect.fillCalled, Effect.transferStart (b ++ p)]) := by
  simp [send, DmaTelemetry.with_state, fill_with_str, extend_from_slice, h]

/-- Witness for C2 at a concrete two-byte buffer and the boot payload. -/
theorem c2_witness :
    send (DmaTelemetry.with_state (TransferState.Ready [7, 8] ⟨0⟩ ⟨1⟩)) false
        (fun buf => fill_with_str buf dmaOkBytes) =
      some (DmaTelemetry.with_state
          (TransferState.MaybeBusy (write_all ⟨1⟩ ⟨0⟩ ([7, 8] ++ dmaOkBytes))),
        [Effect.fillCalled, Effect.transferStart ([7, 8] ++ dmaOkBytes)]) :=
  c2_ready_fill_then_start [7, 8] ⟨0⟩ ⟨1⟩ false dmaOkBytes (by decide)

/-- C3: while the completion check keeps answering false, any number of
repeated `send` calls on an in-flight state produce no events at all — in
particular no hardware transfer start — and return the in-flight state
unchanged, still holding the original handle. -/
theorem c3_no_double_start (n : Nat) (t : Transfer)
    (buffer_filler : TxBuffer → Option TxBuffer) :
    sendRepeat n (DmaTelemetry.with_state (TransferState.MaybeBusy t)) buffer_filler =
      some (DmaTelemetry.with_state (TransferState.MaybeBusy t), []) := by
  induction n with
  | zero => rfl
  | succ n ih =>
    simp only [DmaTelemetry.with_state] at ih
    simp [sendRepeat, send, DmaTelemetry.with_state, ih]

/-- C4: appending a payload of exactly the remaining capacity succeeds
with the whole payload written; appending one byte beyond the remaining
capacity fails fatally with no partial write, and a `send` from `Ready`
whose filler overflows aborts with no hardware transfer started. -/
theorem c4_capacity_boundary (b p : List Byte) (x : Byte) (ch : TxCh)
    (tx : TxUsart) (isDone : Bool) (h : b.length + p.length = txCapacity) :
    fill_with_str b p = some (b ++ p) ∧
    fill_with_str b (p ++ [x]) = none ∧
    send (DmaTelemetry.with_state (TransferState.Ready b ch tx)) isDone
      (fun buf => fill_with_str buf (p ++ [x])) = none := by
  refine ⟨?_, ?_, ?_⟩
  · simp [fill_with_str, extend_from_slice, h]
  · simp [txCapacity] at h
    simp [fill_with_str, extend_from_slice, txCapacity]
    omega
  · simp [txCapacity] at h
    have hov : fill_with_str b (p ++ [x]) = none := by
      simp [fill_with_str, extend_from_slice, txCapacity]
      omega
    simp [send, DmaTelemetry.with_state, hov]

set_option maxRecDepth 4000 in
/-- Witness for C4 at the empty buffer with a 256-byte payload (exact
capacity) and a 257-byte payload (one byte beyond). -/
theorem c4_witness :
    fill_with_str [] (List.replicate 256 0) = some ([] ++ List.replicate 256 0) ∧
    fill_with_str [] (List.replicate 256 0 ++ [0]) = none ∧
    send (DmaTelemetry.with_state (TransferState.Ready [] ⟨0⟩ ⟨1⟩)) false
      (fun buf => fill_with_str buf (List.replicate 256 0 ++ [0])) = none :=
  c4_capacity_boundary [] (List.replicate 256 0) 0 ⟨0⟩ ⟨1⟩ false (by decide)

/-- C5: a `send` on an in-flight state whose completion check answers
false returns the state unchanged — the transfer handle and the buffer it
owns are untouched — with an empty event trace: the filler never runs, its
payload is dropped for this call, and no queue exists beyond the single
in-flight slot. -/
theorem c5_busy_drops_payload (t : Transfer)
    (buffer_filler : TxBuffer → Option TxBuffer) :
    send (DmaTelemetry.with_state (TransferState.MaybeBusy t)) false buffer_filler =
      some (DmaTelemetry.with_state (TransferState.MaybeBusy t), []) := rfl

/-- C6: the literal recursion of `send` terminates on every call within
one extra iteration — fuel 2 (the initial run plus at most one recursive
re-run, fired only when a transfer was reclaimed in this same call) always
suffices and agrees with the executable `send`. -/
theorem c6_terminates_one_extra_iteration (d : DmaTelemetry) (isDone : Bool)
    (buffer_filler : TxBuffer → Option TxBuffer) :
    sendN 2 d isDone buffer_filler = some (send d isDone buffer_filler) := by
  rcases d with ⟨s⟩
  cases s with
  | Ready b ch tx =>
    cases hf : buffer_filler b <;>
      simp [sendN, send, DmaTelemetry.with_state, hf]
  | MaybeBusy t =>
    cases isDone with
    | false => rfl
    | true =>
      cases hf : buffer_filler (TxBuffer.clear t.buffer) <;>
        simp [sendN, send, send_ready, DmaTelemetry.with_state, hf]

/-- C7: every `TransferState` is exactly one of the two variants — the
idle `Ready` triple or the in-flight handle — so the buffer, channel and
transmitter have exactly one owner; every successful `send` preserves the
owned channel and transmitter, and so does the take-modify-put access of
`handle_mpu` on the telemetry slot. -/
theorem c7_exclusive_ownership :
    (∀ s : TransferState,
      (∃ b ch tx, s = TransferState.Ready b ch tx) ↔
        ¬ ∃ t, s = TransferState.MaybeBusy t) ∧
    (∀ (d : DmaTelemetry) (isDone : Bool)
      (buffer_filler : TxBuffer → Option TxBuffer) (d' : DmaTelemetry)
      (es : List Effect), send d isDone buffer_filler = some (d', es) →
      chanOf d'.state = chanOf d.state ∧ txOf d'.state = txOf d.state) ∧
    (∀ (slot : Option DmaTelemetry) (isDone : Bool)
      (slot' : Option DmaTelemetry) (es : List Effect),
      handle_mpu slot isDone = some (slot', es) →
      Option.map (fun d => chanOf d.state) slot' =
        Option.map (fun d => chanOf d.state) slot ∧
      Option.map (fun d => txOf d.state) slot' =
        Option.map (fun d => txOf d.state) slot) := by
  refine ⟨?_, ?_, ?_⟩
  · intro s
    cases s <;> simp
  · intro d isDone buffer_filler d' es h
    exact send_preserves_resources d isDone buffer_filler d' es h
  · intro slot isDone slot' es h
    cases slot with
    | none =>
      simp [handle_mpu] at h
      simp [h.1]
    | some tele =>
      cases hs : send tele isDone (fun b => fill_with_str b interruptBytes) with
      | none => simp [handle_mpu, hs] at h
      | some r =>
        rcases r with ⟨tele', es0⟩
        simp [handle_mpu, hs] at h
        obtain ⟨h1, h2⟩ := h
        subst h1
        subst h2
        have hp := send_preserves_resources tele isDone
          (fun b => fill_with_str b interruptBytes) tele' es0 hs
        simp [hp.1, hp.2]

/-- Witness for C7: the second conjunct applied to a concrete `Ready`
state sent with a no-op filler. -/
theorem c7_witness :
    chanOf (DmaTelemetry.with_state
        (TransferState.MaybeBusy (write_all ⟨1⟩ ⟨0⟩ []))).state =
      chanOf (DmaTelemetry.with_state (TransferState.Ready [] ⟨0⟩ ⟨1⟩)).state ∧
    txOf (DmaTelemetry.with_state
        (TransferState.MaybeBusy (write_all ⟨1⟩ ⟨0⟩ []))).state =
      txOf (DmaTelemetry.with_state (TransferState.Ready [] ⟨0⟩ ⟨1⟩)).state :=
  c7_exclusive_ownership.2.1 (DmaTelemetry.with_state (TransferState.Ready [] ⟨0⟩ ⟨1⟩))
    false (fun b => some b)
    (DmaTelemetry.with_state (TransferState.MaybeBusy (write_all ⟨1⟩ ⟨0⟩ [])))
    [Effect.fillCalled, Effect.transferStart []] (by decide)

/-- C8: the boot scenario of `init` — a fresh `Ready` state over the empty
256-capacity buffer, sent with the nine-byte boot payload — ends in
flight, the hardware receiving exactly those nine bytes, with 247 bytes of
capacity unused. -/
theorem c8_boot_scenario (ch : TxCh) (tx : TxUsart) (isDone : Bool) :
    send (DmaTelemetry.create ch tx) isDone (fun b => fill_with_str b dmaOkBytes) =
      some (DmaTelemetry.with_state
          (TransferState.MaybeBusy (write_all tx ch dmaOkBytes)),
        [Effect.fillCalled, Effect.transferStart dmaOkBytes]) ∧
    dmaOkBytes.length = 9 ∧ txCapacity - dmaOkBytes.length = 247 :=
  ⟨rfl, rfl, rfl⟩

/-- C9: in every successful `send` call the filler runs exactly as many
times as a hardware transfer is started, and at most once — the recursion
after a reclaim never appends the payload twice. -/
theorem c9_fill_once_iff_start (d : DmaTelemetry) (isDone : Bool)
    (buffer_filler : TxBuffer → Option TxBuffer) (d' : DmaTelemetry)
    (es : List Effect) (h : send d isDone buffer_filler = some (d', es)) :
    fillCount es = startCount es ∧ fillCount es ≤ 1 := by
  rcases send_cases d isDone buffer_filler d' es h with
    ⟨b, ch, tx, b', hs, hf, rfl, rfl⟩ | ⟨t, hs, hd, rfl, rfl⟩ |
    ⟨t, p, hs, hd, hf, rfl, rfl⟩ <;>
    simp [fillCount, startCount, Effect.isFill, Effect.isStart]

/-- Witness for C9 at a concrete `Ready` send of the boot payload. -/
theorem c9_witness :
    fillCount [Effect.fillCalled, Effect.transferStart dmaOkBytes] =
      startCount [Effect.fillCalled, Effect.transferStart dmaOkBytes] ∧
    fillCount [Effect.fillCalled, Effect.transferStart dmaOkBytes] ≤ 1 :=
  c9_fill_once_iff_start (DmaTelemetry.with_state (TransferState.Ready [] ⟨0⟩ ⟨1⟩))
    false (fun b => fill_with_str b dmaOkBytes)
    (DmaTelemetry.with_state (TransferState.MaybeBusy (write_all ⟨1⟩ ⟨0⟩ dmaOkBytes)))
    [Effect.fillCalled, Effect.transferStart dmaOkBytes] (by decide)

/-- C10: when the telemetry slot is empty, the interrupt handler does
nothing — no filler run, no hardware event, no abort — and leaves the slot
empty. -/
theorem c10_empty_slot_noop (isDone : Bool) :
    handle_mpu none isDone = some (none, []) := rfl

end DmaInt
